import Mathlib

/-!
Verification of the AirSense scenario impact-simulation engine
(`scenario_simulator/impact_engine.py` and its data model in
`scenario_simulator/models.py` / `scenario_simulator/views.py`).

Python floats are modelled as rationals (`ℚ`); the quantities handled by the
engine (EPA breakpoints, percentages, coefficients) are decimal literals, so
rational arithmetic reproduces the source arithmetic exactly at every input
used below.  Python `int()` truncation is modelled by `pyInt`.  Exceptions are
modelled with `Except String`; a `try/except` block becomes a `match` on that
value.  Django model rows become structures; the mutable scenario row and its
persisted result set become an explicit `RunState` threaded through the
execution engine, and every `scenario.save()` appends the currently visible
`(status, progress_percent)` pair to an observation trace.
-/

namespace AirSense

/-- Python `int()` applied to a float: truncation toward zero. -/
def pyInt (q : ℚ) : ℤ := if 0 ≤ q then ⌊q⌋ else -⌊-q⌋

/-- Python substring containment `needle in hay` (also Django `icontains`
after both sides are lower-cased). -/
def strContains (hay needle : String) : Bool := decide (needle.toList <:+: hay.toList)

/-- Python `str.lower()` (ASCII contents, character-wise). -/
def pyLower (s : String) : String := String.mk (s.data.map Char.toLower)

/-- Python `str.replace(' ', '_')` (character-wise, single-character pattern). -/
def pyReplaceSpace (s : String) : String :=
  String.mk (s.data.map (fun c => if c = ' ' then '_' else c))

/-! ## AQI conversion (`calculate_aqi_from_concentration`)

The source is a chain of `if/elif` branches over breakpoint segments.  Each
segment formula is given its own definition (verbatim from the corresponding
source line) so that the breakpoint-boundary claims can speak about adjacent
segments individually. -/

/-- PM2.5 segment for `concentration <= 12.0` (line 425). -/
def pm25_seg0 (c : ℚ) : ℚ := (50 / 12.0) * c

/-- PM2.5 segment for `concentration <= 35.4` (line 427). -/
def pm25_seg1 (c : ℚ) : ℚ := 50 + ((100 - 50) / (35.4 - 12.1)) * (c - 12.1)

/-- PM2.5 segment for `concentration <= 55.4` (line 429). -/
def pm25_seg2 (c : ℚ) : ℚ := 100 + ((150 - 100) / (55.4 - 35.5)) * (c - 35.5)

/-- PM2.5 top segment (line 431). -/
def pm25_seg3 (c : ℚ) : ℚ := min 500 (150 + ((200 - 150) / (150.4 - 55.5)) * (c - 55.5))

/-- PM10 segment for `concentration <= 54` (line 435). -/
def pm10_seg0 (c : ℚ) : ℚ := (50 / 54) * c

/-- PM10 segment for `concentration <= 154` (line 437). -/
def pm10_seg1 (c : ℚ) : ℚ := 50 + ((100 - 50) / (154 - 55)) * (c - 55)

/-- PM10 top segment (line 439). -/
def pm10_seg2 (c : ℚ) : ℚ := min 500 (100 + ((150 - 100) / (254 - 155)) * (c - 155))

/-- PM2.5 branch chain of `calculate_aqi_from_concentration` (lines 423-431). -/
def aqi_pm25 (concentration : ℚ) : ℚ :=
  if concentration ≤ 12.0 then pm25_seg0 concentration
  else if concentration ≤ 35.4 then pm25_seg1 concentration
  else if concentration ≤ 55.4 then pm25_seg2 concentration
  else pm25_seg3 concentration

/-- PM10 branch chain of `calculate_aqi_from_concentration` (lines 433-439). -/
def aqi_pm10 (concentration : ℚ) : ℚ :=
  if concentration ≤ 54 then pm10_seg0 concentration
  else if concentration ≤ 154 then pm10_seg1 concentration
  else pm10_seg2 concentration

/-- `calculate_aqi_from_concentration(concentration, pollutant_type)`
(impact_engine.py lines 411-443). -/
def calculate_aqi_from_concentration (concentration : ℚ) (pollutant_type : String) : ℚ :=
  if pollutant_type = "pm25" then aqi_pm25 concentration
  else if pollutant_type = "pm10" then aqi_pm10 concentration
  else min 500 (max 0 (concentration * 2))

/-- Segment index selected by the PM2.5 branch chain. -/
def pm25_segment (c : ℚ) : Nat :=
  if c ≤ 12.0 then 0 else if c ≤ 35.4 then 1 else if c ≤ 55.4 then 2 else 3

/-- Segment index selected by the PM10 branch chain. -/
def pm10_segment (c : ℚ) : Nat :=
  if c ≤ 54 then 0 else if c ≤ 154 then 1 else 2

/-! ## Data model (`scenario_simulator/models.py`, values shaped by `views.py`)

A scenario parameter value is either a number or a string:
`create_scenario` (views.py lines 114-124) stores `float(value)` when the
posted value parses as a float and the raw string otherwise.  Consequently a
string-valued parameter is exactly one on which Python `float()` raises
`ValueError`; `pyFloat` returns `none` for it. -/

/-- A value of the JSON `parameters` mapping of a `SimulationScenario`. -/
inductive ParamValue where
  | num : ℚ → ParamValue
  | str : String → ParamValue
deriving DecidableEq

/-- Python `float(param_value)` as used in `get_factor_intensity`; `none`
models the raised `ValueError`/`TypeError` (see the note above: stored strings
are precisely the non-parseable ones). -/
def pyFloat : ParamValue → Option ℚ
  | .num q => some q
  | .str _ => none

/-- The part of a `ScenarioTemplate` row read by the engine
(`scenario.template.scenario_type`). -/
structure ScenarioTemplate where
  scenario_type : String
deriving DecidableEq

/-- The immutable part of a `SimulationScenario` row read by the engine; the
mutable fields (`status`, `progress_percent`, `error_message`) live in
`RunState` below.  Datetimes are modelled as seconds (`ℤ`), as only ordering,
differences and fixed-delta additions are performed on them. -/
structure Scenario where
  name : String
  location : String
  latitude : ℚ
  longitude : ℚ
  parameters : List (String × ParamValue)
  start_date : ℤ
  end_date : ℤ
  time_resolution : String
  template : Option ScenarioTemplate
deriving DecidableEq

/-- An `ImpactFactor` row (models.py lines 129-152).  All float fields default
to 1.0 in the model and carry no validators, so any rational value is a legal
row value. -/
structure ImpactFactor where
  name : String
  factor_type : String
  pm25_coefficient : ℚ := 1
  pm10_coefficient : ℚ := 1
  no2_coefficient : ℚ := 1
  so2_coefficient : ℚ := 1
  co_coefficient : ℚ := 1
  o3_coefficient : ℚ := 1
  seasonal_factor : ℚ := 1
  is_active : Bool := true
deriving DecidableEq

/-- The Python `datetime` attributes read by the engine: `hour` (0-23),
`weekday()` (0 = Monday .. 6 = Sunday) and `month` (1-12). -/
structure PyDateTime where
  hour : Nat
  weekday : Nat
  month : Nat
deriving DecidableEq

/-! ## Factor intensity (`get_factor_intensity`, lines 310-362) -/

/-- The base intensity computed at the top of `get_factor_intensity`
(lines 322-334): 0.5 by default; the first scenario parameter whose
(lower-cased) name contains the normalized factor name overrides it with
`float(param_value) / 100` clamped to [0, 1], unless `float()` raises, in
which case the default is kept (`except: pass` then `break`). -/
def base_intensity_of (scenario : Scenario) (factor : ImpactFactor) : ℚ :=
  let factor_name_lower := pyReplaceSpace (pyLower factor.name)
  match scenario.parameters.find?
      (fun p => strContains (pyLower p.1) factor_name_lower) with
  | some p =>
    match pyFloat p.2 with
    | some q => max 0 (min 1 (q / 100))
    | none => 0.5
  | none => 0.5

/-- `get_factor_intensity(scenario, factor, timestamp)` (lines 310-362):
base intensity, then factor-type-specific temporal modulation, finally
`min(1.0, base_intensity)`. -/
def get_factor_intensity (scenario : Scenario) (factor : ImpactFactor)
    (dt : PyDateTime) : ℚ :=
  let base_intensity := base_intensity_of scenario factor
  let base_intensity :=
    if factor.factor_type = "transportation" then
      if dt.hour = 7 ∨ dt.hour = 8 ∨ dt.hour = 9 ∨ dt.hour = 17 ∨ dt.hour = 18 ∨
          dt.hour = 19 then base_intensity * 1.3
      else if 5 ≤ dt.weekday then base_intensity * 0.7
      else base_intensity
    else if factor.factor_type = "industrial" then
      if dt.hour < 6 ∨ 22 < dt.hour then base_intensity * 0.6
      else if 5 ≤ dt.weekday then base_intensity * 0.5
      else base_intensity
    else if factor.factor_type = "natural" ∧
        strContains (pyLower factor.name) "fire" = true then
      if dt.month = 6 ∨ dt.month = 7 ∨ dt.month = 8 ∨ dt.month = 9 then
        base_intensity * factor.seasonal_factor
      else base_intensity * 0.3
    else base_intensity
  min 1 base_intensity

/-! ## Pollutants and baseline profiles -/

/-- The six pollutants iterated by the engine. -/
inductive Pollutant where
  | pm25 | pm10 | no2 | so2 | co | o3
deriving DecidableEq

/-- The dictionary key / pollutant-type string of a pollutant. -/
def Pollutant.key : Pollutant → String
  | .pm25 => "pm25"
  | .pm10 => "pm10"
  | .no2 => "no2"
  | .so2 => "so2"
  | .co => "co"
  | .o3 => "o3"

/-- The per-pollutant coefficient attribute `f"{pollutant}_coefficient"` of an
`ImpactFactor` (lines 233-235; `hasattr` always holds for these six). -/
def ImpactFactor.coefficient (f : ImpactFactor) : Pollutant → ℚ
  | .pm25 => f.pm25_coefficient
  | .pm10 => f.pm10_coefficient
  | .no2 => f.no2_coefficient
  | .so2 => f.so2_coefficient
  | .co => f.co_coefficient
  | .o3 => f.o3_coefficient

/-- The hardcoded per-pollutant defaults of `calculate_timestep_impact`
(lines 220-224). -/
def pollutant_defaults : Pollutant → ℚ
  | .pm25 => 25
  | .pm10 => 45
  | .no2 => 30
  | .so2 => 10
  | .co => 2
  | .o3 => 80

/-- One entry of a baseline profile: averaged concentration and AQI. -/
structure BaselineEntry where
  concentration : ℚ
  aqi : ℚ
deriving DecidableEq

/-- A baseline profile: the dictionary built by `get_baseline_data` or
`generate_synthetic_baseline`, keyed by pollutant strings. -/
abbrev Baseline := List (String × BaselineEntry)

/-- The fixed default table of `generate_synthetic_baseline` (lines 139-146). -/
def synthetic_default_table : Baseline :=
  [("pm25", ⟨25.0, 75⟩), ("pm10", ⟨45.0, 70⟩), ("no2", ⟨30.0, 65⟩),
   ("so2", ⟨10.0, 40⟩), ("co", ⟨2.0, 35⟩), ("o3", ⟨80.0, 85⟩)]

/-- Urban keywords (line 152). -/
def urban_terms : List String := ["city", "downtown", "urban", "metro"]

/-- Rural keywords (line 158). -/
def rural_terms : List String := ["rural", "country", "village", "farm"]

/-- `generate_synthetic_baseline(scenario)` (lines 128-163). -/
def generate_synthetic_baseline (scenario : Scenario) : Baseline :=
  let location_lower := pyLower scenario.location
  if urban_terms.any (fun t => strContains location_lower t) then
    synthetic_default_table.map
      (fun p => (p.1, ⟨p.2.concentration * 1.3, min 200 (p.2.aqi * 1.2)⟩))
  else if rural_terms.any (fun t => strContains location_lower t) then
    synthetic_default_table.map
      (fun p => (p.1, ⟨p.2.concentration * 0.6, max 20 (p.2.aqi * 0.7)⟩))
  else synthetic_default_table

/-- Baseline concentration for a pollutant: the profile entry if the key is
present, the hardcoded default otherwise (lines 214-225). -/
def baseline_concentration_of (baseline : Baseline) (p : Pollutant) : ℚ :=
  match baseline.find? (fun e => e.1 == p.key) with
  | some e => e.2.concentration
  | none => pollutant_defaults p

/-- Baseline AQI for a pollutant: the profile entry if present, else the
uniform default 75 (lines 214-225). -/
def baseline_aqi_of (baseline : Baseline) (p : Pollutant) : ℚ :=
  match baseline.find? (fun e => e.1 == p.key) with
  | some e => e.2.aqi
  | none => 75

/-- `max(...)` over the six per-pollutant dictionary values (lines 255-256). -/
def maxPoll (f : Pollutant → ℚ) : ℚ :=
  max (f .pm25) (max (f .pm10) (max (f .no2) (max (f .so2) (max (f .co) (f .o3)))))

/-! ## Per-step computation -/

/-- Exception-message constants used by the `Except` embeddings. -/
def type_error_msg : String := "TypeError: unsupported comparison between str and int"

/-- See `type_error_msg`. -/
def zero_division_msg : String := "ZeroDivisionError: division by zero"

/-- See `type_error_msg`. -/
def attribute_error_msg : String := "AttributeError: object has no attribute get"

/-- Active factors whose name contains the parameter name case-insensitively:
`ImpactFactor.objects.filter(name__icontains=param_name, is_active=True)`
(lines 293-296). -/
def matching_factors (db : List ImpactFactor) (param_name : String) :
    List ImpactFactor :=
  db.filter (fun f => strContains (pyLower f.name) (pyLower param_name) && f.is_active)

/-- `get_applicable_impact_factors(scenario, timestamp)` (lines 285-307).
The loop evaluates `param_value > 0` on every parameter value in order; on a
string value Python 3 raises `TypeError` (str/int comparison), modelled as an
`Except.error`.  Template factors are the active ones whose `factor_type`
equals the template scenario type. -/
def get_applicable_impact_factors (db : List ImpactFactor) (scenario : Scenario) :
    Except String (List ImpactFactor) := do
  let factors ← scenario.parameters.foldlM
    (fun acc p =>
      match p.2 with
      | .str _ => Except.error type_error_msg
      | .num q =>
        if 0 < q then Except.ok (acc ++ matching_factors db p.1)
        else Except.ok acc)
    []
  match scenario.template with
  | some t =>
    Except.ok (factors ++
      db.filter (fun f => f.factor_type == t.scenario_type && f.is_active))
  | none => Except.ok factors

/-- Oracle parameters of the embedding.  `toDT` is the calendar decomposition
of a second-valued timestamp (not re-implemented here); `dailyFactor h` and
`seasonalFactor m` model the sinusoids `1 + 0.3*sin((h-6)*pi/12)` and
`1 + 0.2*sin((m-3)*pi/6)` of `apply_temporal_variations` (lines 365-380),
whose values are irrational; none of the verified claims depend on the values
of these three functions, so all theorems below hold for every
instantiation. -/
structure RunEnv where
  toDT : ℤ → PyDateTime
  dailyFactor : Nat → ℚ
  seasonalFactor : Nat → ℚ

/-- `apply_temporal_variations(concentrations, timestamp)` (lines 365-380)
with the sinusoid values supplied by the environment. -/
def apply_temporal_variations (env : RunEnv) (conc : Pollutant → ℚ)
    (dt : PyDateTime) : Pollutant → ℚ :=
  fun p => conc p * (env.dailyFactor dt.hour * env.seasonalFactor dt.month)

/-- `apply_weather_effects(concentrations, scenario, timestamp)`
(lines 383-408).  `scenario.parameters.get('weather', {})` returns a float or
a string when the key is present (the only value shapes `create_scenario`
stores), and `.get('wind_speed', 5.0)` on either raises `AttributeError`;
with the key absent the defaults wind=5, temperature=20, humidity=50 apply. -/
def apply_weather_effects (scenario : Scenario) (conc : Pollutant → ℚ) :
    Except String (Pollutant → ℚ) :=
  match scenario.parameters.find? (fun p => p.1 == "weather") with
  | some _ => Except.error attribute_error_msg
  | none =>
    let wind_speed : ℚ := 5.0
    let temperature : ℚ := 20.0
    let humidity : ℚ := 50.0
    let wind_factor := 1.0 / (1.0 + wind_speed / 10.0)
    let temp_factor := 1.0 + (temperature - 20.0) / 100.0
    let humidity_factor := 1.0 + (humidity - 50.0) / 200.0
    Except.ok fun p =>
      let c := conc p * (wind_factor * temp_factor)
      if p = .pm25 ∨ p = .pm10 then c * humidity_factor else c

/-- The factor-application loop of `calculate_timestep_impact`
(lines 230-241): each factor multiplies each concentration by
`1 + (coefficient - 1) * intensity`. -/
def apply_impact_factors (scenario : Scenario) (dt : PyDateTime)
    (factors : List ImpactFactor) (conc : Pollutant → ℚ) : Pollutant → ℚ :=
  factors.foldl
    (fun c factor =>
      let intensity := get_factor_intensity scenario factor dt
      fun p => c p * (1 + (factor.coefficient p - 1) * intensity))
    conc

/-- `calculate_visibility(concentrations)` (lines 446-453). -/
def calculate_visibility (concentrations : Pollutant → ℚ) : ℚ :=
  let pm25 := concentrations .pm25
  let pm10 := concentrations .pm10
  let visibility := 40.0 / (1.0 + (pm25 + pm10) / 50.0)
  max 1.0 (min 40.0 visibility)

/-- `calculate_health_risk(aqi_value)` (lines 456-467). -/
def calculate_health_risk (aqi_value : ℚ) : ℚ :=
  if aqi_value ≤ 50 then 0.1
  else if aqi_value ≤ 100 then 0.3
  else if aqi_value ≤ 150 then 0.6
  else if aqi_value ≤ 200 then 0.8
  else 1.0

/-- A `SimulationResult` row (models.py lines 89-103). -/
structure SimResult where
  timestamp : ℤ
  pm25_concentration : ℚ
  pm10_concentration : ℚ
  no2_concentration : ℚ
  so2_concentration : ℚ
  co_concentration : ℚ
  o3_concentration : ℚ
  aqi_value : ℤ
  baseline_aqi : ℤ
  improvement_percent : ℚ
  visibility_km : ℚ
  health_risk_index : ℚ
deriving DecidableEq

/-- The body of the `try` block of `calculate_timestep_impact`
(lines 209-278).  Exceptions arise, in source order, from:
`get_applicable_impact_factors` (str-valued parameter, line 291),
`apply_weather_effects` (a `weather` parameter, line 386-389), the
`improvement_percent` division when the baseline overall AQI is 0 (line 259),
and the `calculate_visibility` division when its denominator is 0
(line 452). -/
def calculate_timestep_impact_body (env : RunEnv) (db : List ImpactFactor)
    (scenario : Scenario) (baseline : Baseline) (ts : ℤ) :
    Except String SimResult := do
  let dt := env.toDT ts
  let conc0 : Pollutant → ℚ := baseline_concentration_of baseline
  let factors ← get_applicable_impact_factors db scenario
  let conc1 := apply_impact_factors scenario dt factors conc0
  let conc2 := apply_temporal_variations env conc1 dt
  let conc3 ← apply_weather_effects scenario conc2
  let aqi_values : Pollutant → ℚ :=
    fun p => calculate_aqi_from_concentration (conc3 p) p.key
  let overall_aqi := maxPoll aqi_values
  let baseline_overall_aqi := maxPoll (baseline_aqi_of baseline)
  if baseline_overall_aqi = 0 then Except.error zero_division_msg
  else if 1.0 + (conc3 .pm25 + conc3 .pm10) / 50.0 = 0 then
    Except.error zero_division_msg
  else
    Except.ok
      { timestamp := ts
        pm25_concentration := conc3 .pm25
        pm10_concentration := conc3 .pm10
        no2_concentration := conc3 .no2
        so2_concentration := conc3 .so2
        co_concentration := conc3 .co
        o3_concentration := conc3 .o3
        aqi_value := pyInt overall_aqi
        baseline_aqi := pyInt baseline_overall_aqi
        improvement_percent :=
          (baseline_overall_aqi - overall_aqi) / baseline_overall_aqi * 100
        visibility_km := calculate_visibility conc3
        health_risk_index := calculate_health_risk overall_aqi }

/-- `calculate_timestep_impact` with its `try/except` wrapper (lines 197-282):
every exception raised by the body is caught and logged and `None` is
returned. -/
def calculate_timestep_impact (env : RunEnv) (db : List ImpactFactor)
    (scenario : Scenario) (baseline : Baseline) (ts : ℤ) : Option SimResult :=
  match calculate_timestep_impact_body env db scenario baseline ts with
  | .ok r => some r
  | .error _ => none

/-! ## Time-step grid and execution engine -/

/-- The `while current_time <= end_date` loop of `calculate_time_steps`
(lines 190-192), written with explicit fuel; `calculate_time_steps` supplies
fuel equal to the exact iteration count, so the guard — not the fuel — always
terminates the list. -/
def time_steps_go : Nat → ℤ → ℤ → ℤ → List ℤ
  | 0, _, _, _ => []
  | fuel + 1, current, end_date, delta =>
    if current ≤ end_date then
      current :: time_steps_go fuel (current + delta) end_date delta
    else []

/-- `calculate_time_steps(start_date, end_date, resolution)` (lines 166-194);
deltas are in seconds (hour/day/week), default hourly. -/
def calculate_time_steps (start_date end_date : ℤ) (resolution : String) :
    List ℤ :=
  let delta : ℤ :=
    if resolution = "hourly" then 3600
    else if resolution = "daily" then 86400
    else if resolution = "weekly" then 604800
    else 3600
  time_steps_go ((end_date - start_date).toNat / delta.toNat + 1)
    start_date end_date delta

/-- An exogenous (infrastructure-level) exception injected into
`run_scenario_simulation`: while clearing prior results (line 33), at the
start of processing time step `i` (the loop body, lines 50-59), or while
bulk-persisting the accumulated results (line 62).  The per-step computation
itself never throws outward (it swallows its exceptions, lines 280-282), so
these, plus the completion save at line 68, are the points at which the
outer `except` (lines 73-78) can fire.  A failure of the completion save is
modelled separately by `run_with_completion_save_failure`, because it is the
one failure that happens after `bulk_create` and therefore leaves the full
result set persisted. -/
inductive RunFailure where
  | atClear (msg : String)
  | atStep (i : Nat) (msg : String)
  | atPersist (msg : String)
deriving DecidableEq

/-- The message carried by an injected failure (`str(e)`). -/
def RunFailure.msg : RunFailure → String
  | .atClear m => m
  | .atStep _ m => m
  | .atPersist m => m

/-- The mutable state touched by a run: the scenario row fields written by the
engine, the persisted `SimulationResult` rows of this scenario, and the trace
of `(status, progress_percent)` pairs made visible by each `scenario.save()`
call (what a poller can observe). -/
structure RunState where
  status : String
  progress_percent : ℤ
  error_message : String
  completed : Bool
  persisted : List SimResult
  trace : List (String × ℤ)
deriving DecidableEq

/-- `scenario.save()`: publishes the current status and progress. -/
def saveState (st : RunState) : RunState :=
  { st with trace := st.trace ++ [(st.status, st.progress_percent)] }

/-- Whether the injected failure fires at step `i`. -/
def exoStep (exo : Option RunFailure) (i : Nat) : Option String :=
  match exo with
  | some (.atStep j m) => if i = j then some m else none
  | _ => none

/-- The `for i, timestamp in enumerate(time_steps)` loop of
`run_scenario_simulation` (lines 49-59): per iteration, update and save
`progress_percent = int((i / total_steps) * 100)`, compute the step, and
append the result if it is not `None`. -/
def run_loop (env : RunEnv) (db : List ImpactFactor) (scenario : Scenario)
    (baseline : Baseline) (exo : Option RunFailure) (total : Nat) :
    List (Nat × ℤ) → RunState → List SimResult →
    Except (String × RunState) (RunState × List SimResult)
  | [], st, results => .ok (st, results)
  | (i, ts) :: rest, st, results =>
    match exoStep exo i with
    | some m => .error (m, st)
    | none =>
      let progress := pyInt ((i : ℚ) / (total : ℚ) * 100)
      let st := saveState { st with progress_percent := progress }
      let results :=
        match calculate_timestep_impact env db scenario baseline ts with
        | some r => results ++ [r]
        | none => results
      run_loop env db scenario baseline exo total rest st results

/-- Baseline resolution of `run_scenario_simulation` (lines 36-41):
`get_baseline_data` swallows its own exceptions and returns a profile or
`None` (modelled by the `baseline_db` oracle); `if not baseline_data` — on
`None` or an empty profile — the synthetic baseline is generated instead. -/
def resolve_baseline (scenario : Scenario) (baseline_db : Option Baseline) :
    Baseline :=
  match baseline_db with
  | some b => if b.isEmpty then generate_synthetic_baseline scenario else b
  | none => generate_synthetic_baseline scenario

/-- The body of the `try` block of `run_scenario_simulation` (lines 29-71):
clear prior results, resolve the baseline, iterate the grid, bulk-create the
accumulated results, then mark the scenario completed.  The `RunFailure`
points cover every fallible operation up to and including the bulk persist;
the remaining failure trace — the completion save at line 68 raising after
`bulk_create` already committed the rows — is embedded separately as
`run_with_completion_save_failure` below. -/
def run_body (env : RunEnv) (db : List ImpactFactor) (scenario : Scenario)
    (baseline_db : Option Baseline) (exo : Option RunFailure) (st : RunState) :
    Except (String × RunState) RunState :=
  match exo with
  | some (.atClear m) => .error (m, st)
  | _ =>
    let st1 := { st with persisted := ([] : List SimResult) }
    let baseline := resolve_baseline scenario baseline_db
    let time_steps :=
      calculate_time_steps scenario.start_date scenario.end_date
        scenario.time_resolution
    let total := time_steps.length
    match run_loop env db scenario baseline exo total time_steps.enum st1 [] with
    | .error e => .error e
    | .ok (st2, results) =>
      match exo with
      | some (.atPersist m) => .error (m, st2)
      | _ =>
        let st3 := { st2 with persisted := results }
        .ok (saveState { st3 with
          status := "completed", progress_percent := 100, completed := true })

/-- `run_scenario_simulation(scenario)` (lines 19-78): the `try` body above;
on an exception the handler sets `status='failed'`, stores the exception
message, saves, and returns `False`; on success it returns `True`. -/
def run_scenario_simulation (env : RunEnv) (db : List ImpactFactor)
    (scenario : Scenario) (baseline_db : Option Baseline)
    (exo : Option RunFailure) (st : RunState) : Bool × RunState :=
  match run_body env db scenario baseline_db exo st with
  | .ok st1 => (true, st1)
  | .error (m, st1) =>
    (false, saveState { st1 with status := "failed", error_message := m })

/-- The execution trace in which everything succeeds up to and including the
bulk persist (line 62) and the completion save at line 68 then raises `m`:
lines 65-67 have already set the in-memory fields, the failing save
publishes nothing, and the handler (lines 73-78) overwrites status and
message and saves.  Kept separate from the `RunFailure` points of `run_body`
because its outcome differs: the scenario ends failed while the full result
set stays persisted. -/
def run_with_completion_save_failure (env : RunEnv) (db : List ImpactFactor)
    (scenario : Scenario) (baseline_db : Option Baseline) (m : String)
    (st : RunState) : Bool × RunState :=
  let st1 := { st with persisted := ([] : List SimResult) }
  let baseline := resolve_baseline scenario baseline_db
  let time_steps :=
    calculate_time_steps scenario.start_date scenario.end_date
      scenario.time_resolution
  let total := time_steps.length
  match run_loop env db scenario baseline none total time_steps.enum st1 [] with
  | .error e =>
    (false, saveState { e.2 with status := "failed", error_message := e.1 })
  | .ok (st2, results) =>
    let st3 := { st2 with persisted := results }
    let st4 := { st3 with status := "completed", progress_percent := 100, completed := true }
    (false, saveState { st4 with status := "failed", error_message := m })

/-! ## Validation (`validate_scenario_parameters`, lines 470-502) -/

/-- The duration-cap error message (line 489). -/
def duration_error_msg : String := "Simulation duration cannot exceed 365 days"

/-- `validate_scenario_parameters(scenario)` (lines 470-502).  Python
`timedelta.days` is the floor of the difference in whole days, modelled with
`Int.fdiv` by 86400 on second-valued datetimes. -/
def validate_scenario_parameters (scenario : Scenario) : Bool × List String :=
  let errors : List String := []
  let errors :=
    if scenario.end_date ≤ scenario.start_date then
      errors ++ ["End date must be after start date"] else errors
  let errors :=
    if 365 < Int.fdiv (scenario.end_date - scenario.start_date) 86400 then
      errors ++ [duration_error_msg] else errors
  let errors :=
    if ¬(-90 ≤ scenario.latitude ∧ scenario.latitude ≤ 90) then
      errors ++ ["Latitude must be between -90 and 90 degrees"] else errors
  let errors :=
    if ¬(-180 ≤ scenario.longitude ∧ scenario.longitude ≤ 180) then
      errors ++ ["Longitude must be between -180 and 180 degrees"] else errors
  let errors :=
    if scenario.parameters = [] then
      errors ++ ["At least one impact parameter must be specified"] else errors
  (errors.length == 0, errors)

/-! ## Concrete rows used by witnesses and counterexamples -/

/-- A scenario with no parameters (otherwise well-formed). -/
def empty_param_scenario : Scenario :=
  { name := "s", location := "loc", latitude := 0, longitude := 0,
    parameters := [], start_date := 0, end_date := 0,
    time_resolution := "hourly", template := none }

/-- A natural-event factor named like a wildfire whose `seasonal_factor` is
negative; the data model (a plain `FloatField`, no validators) permits it. -/
def negative_seasonal_fire_factor : ImpactFactor :=
  { name := "Wildfire", factor_type := "natural", seasonal_factor := -1 }

/-- A wildfire factor with the default (nonnegative) `seasonal_factor`. -/
def default_fire_factor : ImpactFactor :=
  { name := "Wildfire", factor_type := "natural" }

/-- A scenario lasting 365 days plus one hour: its duration strictly exceeds
365 days, but `timedelta.days` is 365. -/
def scenario_365d_1h : Scenario :=
  { name := "d", location := "loc", latitude := 0, longitude := 0,
    parameters := [("traffic", .num 50)], start_date := 0,
    end_date := 365 * 86400 + 3600, time_resolution := "hourly",
    template := none }

/-- A scenario lasting 400 days. -/
def scenario_400d : Scenario :=
  { name := "d2", location := "loc", latitude := 0, longitude := 0,
    parameters := [("traffic", .num 50)], start_date := 0,
    end_date := 400 * 86400, time_resolution := "daily", template := none }

/-- The oracles fixed trivially for concrete runs (the claims hold for every
instantiation; witnesses just need one). -/
def trivial_env : RunEnv :=
  { toDT := fun _ => ⟨0, 0, 1⟩, dailyFactor := fun _ => 1,
    seasonalFactor := fun _ => 1 }

/-- The scenario row state as the `run_simulation` view (views.py
lines 246-248) hands it to the engine: marked running with zero progress. -/
def initial_run_state : RunState :=
  { status := "running", progress_percent := 0, error_message := "",
    completed := false, persisted := [], trace := [] }

/-- A baseline profile whose AQI values are all zero, making the baseline
overall AQI zero. -/
def zero_aqi_baseline : Baseline :=
  [("pm25", ⟨25, 0⟩), ("pm10", ⟨45, 0⟩), ("no2", ⟨30, 0⟩),
   ("so2", ⟨10, 0⟩), ("co", ⟨2, 0⟩), ("o3", ⟨80, 0⟩)]

/-- A one-step scenario (start = end) with a numeric parameter. -/
def one_step_scenario : Scenario :=
  { name := "s1", location := "loc", latitude := 0, longitude := 0,
    parameters := [("traffic", .num 1)], start_date := 0, end_date := 0,
    time_resolution := "hourly", template := none }

/-- A one-step scenario with a different numeric parameter. -/
def one_step_scenario_industry : Scenario :=
  { name := "s2", location := "loc", latitude := 0, longitude := 0,
    parameters := [("industry", .num 2)], start_date := 0, end_date := 0,
    time_resolution := "hourly", template := none }

/-- A baseline profile with zero concentrations but nonzero AQI values: the
per-step computation succeeds on it, and the zero concentrations keep the
arithmetic trivial. -/
def zero_conc_baseline : Baseline :=
  [("pm25", ⟨0, 75⟩), ("pm10", ⟨0, 70⟩), ("no2", ⟨0, 65⟩),
   ("so2", ⟨0, 40⟩), ("co", ⟨0, 35⟩), ("o3", ⟨0, 85⟩)]

/-- A scenario whose time-step grid is empty (start after end). -/
def empty_grid_scenario : Scenario :=
  { name := "s4", location := "loc", latitude := 0, longitude := 0,
    parameters := [("traffic", .num 1)], start_date := 3600, end_date := 0,
    time_resolution := "hourly", template := none }

/-- A scenario whose parameters contain a non-numeric string value, the shape
`create_scenario` stores for any posted value that does not parse as a
float. -/
def str_param_scenario : Scenario :=
  { name := "s3", location := "loc", latitude := 0, longitude := 0,
    parameters := [("policy_mode", .str "strict")], start_date := 0,
    end_date := 3600, time_resolution := "hourly", template := none }

/-- Invariant carried through the run loop by the progress-trace proofs: the
scenario is still marked running, its current progress is below 100, and the
published trace is non-decreasing with every entry at or below the current
progress. -/
def trace_ok (st : RunState) : Prop :=
  st.status = "running" ∧ st.progress_percent < 100 ∧
  List.Pairwise (fun a b : String × ℤ => a.2 ≤ b.2) st.trace ∧
  ∀ e ∈ st.trace, e.2 ≤ st.progress_percent

/-! ## Theorems about the AQI conversion -/

/-- C2 (counterexample).  `calculate_aqi_from_concentration` is NOT
non-decreasing in the concentration for the pm25 table: at the first
breakpoint boundary the branch for `concentration <= 12.0` yields exactly 50,
while the next branch interpolates from `C_lo = 12.1`, so the concentration
12.05 (greater than 12) is mapped strictly below 50. -/
theorem aqi_pm25_monotonicity_fails :
    (0 : ℚ) ≤ 12 ∧ (12 : ℚ) ≤ 241 / 20 ∧
    calculate_aqi_from_concentration (241 / 20) "pm25" <
      calculate_aqi_from_concentration 12 "pm25" := by
  refine ⟨by norm_num, by norm_num, ?_⟩
  norm_num [calculate_aqi_from_concentration, aqi_pm25, pm25_seg0, pm25_seg1]

/-- C2 (amended).  `calculate_aqi_from_concentration` is non-decreasing in the
concentration for every pollutant other than pm25 and pm10 (the generic
fallback), and for pm25 and pm10 it is non-decreasing within each breakpoint
segment; monotonicity across segment boundaries fails (see the
counterexample). -/
theorem calculate_aqi_monotone_within_segments :
    (∀ p : String, p ≠ "pm25" → p ≠ "pm10" → ∀ c1 c2 : ℚ, 0 ≤ c1 → c1 ≤ c2 →
      calculate_aqi_from_concentration c1 p ≤ calculate_aqi_from_concentration c2 p) ∧
    (∀ c1 c2 : ℚ, 0 ≤ c1 → c1 ≤ c2 → pm25_segment c1 = pm25_segment c2 →
      calculate_aqi_from_concentration c1 "pm25" ≤ calculate_aqi_from_concentration c2 "pm25") ∧
    (∀ c1 c2 : ℚ, 0 ≤ c1 → c1 ≤ c2 → pm10_segment c1 = pm10_segment c2 →
      calculate_aqi_from_concentration c1 "pm10" ≤ calculate_aqi_from_concentration c2 "pm10") := by
  refine ⟨?_, ?_, ?_⟩
  · intro p hp hp' c1 c2 _ h12
    simp only [calculate_aqi_from_concentration, if_neg hp, if_neg hp']
    exact min_le_min le_rfl (max_le_max le_rfl (by linarith))
  · intro c1 c2 _ h12 hseg
    show aqi_pm25 c1 ≤ aqi_pm25 c2
    unfold pm25_segment at hseg
    unfold aqi_pm25 pm25_seg0 pm25_seg1 pm25_seg2 pm25_seg3
    split_ifs at hseg ⊢ <;>
      first
        | omega
        | linarith
        | exact min_le_min le_rfl (by linarith)
  · intro c1 c2 _ h12 hseg
    show aqi_pm10 c1 ≤ aqi_pm10 c2
    unfold pm10_segment at hseg
    unfold aqi_pm10 pm10_seg0 pm10_seg1 pm10_seg2
    split_ifs at hseg ⊢ <;>
      first
        | omega
        | linarith
        | exact min_le_min le_rfl (by linarith)

/-- C2 (witness for the amended theorem). -/
theorem calculate_aqi_monotone_within_segments_witness :
    calculate_aqi_from_concentration 1 "o3" ≤ calculate_aqi_from_concentration 2 "o3" :=
  calculate_aqi_monotone_within_segments.1 "o3" (by decide) (by decide) 1 2
    (by norm_num) (by norm_num)

/-- C3 (counterexample).  The adjacent PM2.5 segments around the boundary
concentration 12.0 do NOT agree there: the lower segment gives 50, while the
upper segment evaluated at 12.0 gives a strictly smaller value. -/
theorem aqi_pm25_boundary_discontinuity :
    pm25_seg1 12.0 ≠ pm25_seg0 12.0 := by
  norm_num [pm25_seg0, pm25_seg1]

/-- C3 (amended).  At every breakpoint boundary of the PM2.5 table (12.0,
35.4, 55.4) and of the PM10 table (54, 154), the two adjacent linear segments
of `calculate_aqi_from_concentration` disagree: the segment above the
boundary, evaluated at the boundary concentration, is strictly below the value
of the segment below it (the tables interpolate the upper segment from `C_lo`
values 12.1/35.5/55.5 resp. 55/155, leaving a downward jump). -/
theorem aqi_boundary_segments_disagree :
    pm25_seg1 12.0 < pm25_seg0 12.0 ∧ pm25_seg2 35.4 < pm25_seg1 35.4 ∧
    pm25_seg3 55.4 < pm25_seg2 55.4 ∧ pm10_seg1 54 < pm10_seg0 54 ∧
    pm10_seg2 154 < pm10_seg1 154 := by
  norm_num [pm25_seg0, pm25_seg1, pm25_seg2, pm25_seg3, pm10_seg0, pm10_seg1,
    pm10_seg2, min_def]

/-- C4.  For every concentration `c ≥ 0` and every pollutant type,
`calculate_aqi_from_concentration` returns a value in the closed interval
[0, 500]. -/
theorem calculate_aqi_bounds (c : ℚ) (p : String) (h : 0 ≤ c) :
    0 ≤ calculate_aqi_from_concentration c p ∧
    calculate_aqi_from_concentration c p ≤ 500 := by
  unfold calculate_aqi_from_concentration aqi_pm25 aqi_pm10 pm25_seg0 pm25_seg1
    pm25_seg2 pm25_seg3 pm10_seg0 pm10_seg1 pm10_seg2
  split_ifs <;>
    refine ⟨?_, ?_⟩ <;>
      first
        | linarith
        | exact le_min (by norm_num) (by linarith)
        | exact le_trans (min_le_left _ _) (by norm_num)
        | exact le_min (by norm_num) (le_max_left _ _)

/-- C4 (witness). -/
theorem calculate_aqi_bounds_witness :
    0 ≤ calculate_aqi_from_concentration 10 "pm25" ∧
    calculate_aqi_from_concentration 10 "pm25" ≤ 500 :=
  calculate_aqi_bounds 10 "pm25" (by norm_num)

/-! ## Theorems about factor intensity -/

/-- Helper: the base intensity is the 0.5 default or a clamped value. -/
theorem base_intensity_of_cases (s : Scenario) (f : ImpactFactor) :
    base_intensity_of s f = 0.5 ∨
    ∃ q : ℚ, base_intensity_of s f = max 0 (min 1 (q / 100)) := by
  simp only [base_intensity_of]
  split
  · split
    · exact Or.inr ⟨_, rfl⟩
    · exact Or.inl rfl
  · exact Or.inl rfl

/-- Helper: the base intensity always lies in [0, 1] (it is either the 0.5
default or an explicitly clamped parameter value). -/
theorem base_intensity_of_mem_unit (s : Scenario) (f : ImpactFactor) :
    0 ≤ base_intensity_of s f ∧ base_intensity_of s f ≤ 1 := by
  rcases base_intensity_of_cases s f with h | ⟨q, h⟩ <;> rw [h]
  · norm_num
  · exact ⟨le_max_left 0 _, max_le (by norm_num) (min_le_left _ _)⟩

/-- C7 (counterexample).  `get_factor_intensity` is NOT always in [0, 1]: for
a natural factor whose name contains "fire", during fire season the base
intensity is multiplied by the factor `seasonal_factor`, which the data model
does not constrain; with `seasonal_factor = -1` the result is -0.5, and the
final `min(1.0, ...)` clamp has no floor. -/
theorem get_factor_intensity_negative :
    get_factor_intensity empty_param_scenario negative_seasonal_fire_factor
      ⟨12, 2, 7⟩ < 0 := by
  norm_num +decide [get_factor_intensity, base_intensity_of, empty_param_scenario,
    negative_seasonal_fire_factor, List.find?]

/-- C7 (amended).  For every factor whose `seasonal_factor` is nonnegative
(in particular every factor left at the field default 1.0),
`get_factor_intensity` returns a value in [0, 1] for every scenario and
timestamp: the base intensity is 0.5 or a clamped parameter value, all
modulation multipliers are then nonnegative, and the result is finally clamped
to at most 1. -/
theorem get_factor_intensity_bounds (scenario : Scenario) (factor : ImpactFactor)
    (dt : PyDateTime) (h : 0 ≤ factor.seasonal_factor) :
    0 ≤ get_factor_intensity scenario factor dt ∧
    get_factor_intensity scenario factor dt ≤ 1 := by
  obtain ⟨hb0, -⟩ := base_intensity_of_mem_unit scenario factor
  simp only [get_factor_intensity]
  refine ⟨le_min (by norm_num) ?_, min_le_left _ _⟩
  split_ifs <;>
    first
      | exact hb0
      | exact mul_nonneg hb0 h
      | exact mul_nonneg hb0 (by norm_num)

/-- C7 (witness for the amended theorem). -/
theorem get_factor_intensity_bounds_witness :
    0 ≤ get_factor_intensity empty_param_scenario default_fire_factor ⟨8, 0, 5⟩ ∧
    get_factor_intensity empty_param_scenario default_fire_factor ⟨8, 0, 5⟩ ≤ 1 :=
  get_factor_intensity_bounds empty_param_scenario default_fire_factor ⟨8, 0, 5⟩
    (by norm_num [default_fire_factor])

/-! ## Theorems about validation -/

/-- C9 (counterexample).  A scenario whose duration `end_date - start_date`
strictly exceeds 365 days (here: 365 days and one hour) can still pass
validation: the source checks `duration.days > 365`, and `timedelta.days`
floors the fractional day away. -/
theorem validate_duration_cap_fails_on_fractional_day :
    (365 * 86400 : ℤ) < scenario_365d_1h.end_date - scenario_365d_1h.start_date ∧
    (validate_scenario_parameters scenario_365d_1h).1 = true ∧
    (validate_scenario_parameters scenario_365d_1h).2 = [] := by decide

/-- C9 (amended).  For every scenario whose duration is more than 365 whole
days — `timedelta.days`, i.e. the floor of `(end_date - start_date) / 86400`
seconds, exceeds 365 — validation returns `is_valid = False` and the error
list contains the duration-cap message exactly once. -/
theorem validate_duration_cap (scenario : Scenario)
    (h : 365 < Int.fdiv (scenario.end_date - scenario.start_date) 86400) :
    (validate_scenario_parameters scenario).1 = false ∧
    (validate_scenario_parameters scenario).2.count duration_error_msg = 1 := by
  simp only [validate_scenario_parameters]
  split_ifs <;>
    first
      | exact absurd h (by assumption)
      | decide

/-- C9 (witness for the amended theorem). -/
theorem validate_duration_cap_witness :
    (validate_scenario_parameters scenario_400d).1 = false ∧
    (validate_scenario_parameters scenario_400d).2.count duration_error_msg = 1 :=
  validate_duration_cap scenario_400d (by decide)

/-! ## Theorems about the execution engine

The engine claims are settled against `run_scenario_simulation` with an
explicit oracle (`RunFailure`) for infrastructure-level exceptions: the
per-step computation swallows every exception it raises (lines 280-282), so
the outer handler (lines 73-78) can only fire on failures of the surrounding
operations — clearing prior rows, a step-loop save, or the bulk persist. -/



/-- Helper: `pyInt` of a nonnegative float is nonnegative. -/
theorem pyInt_nonneg (q : ℚ) (h : 0 ≤ q) : 0 ≤ pyInt q := by
  simp only [pyInt, if_pos h]
  exact Int.le_floor.2 (by exact_mod_cast h)

/-- Helper: `pyInt` truncation never rounds up past an integer bound. -/
theorem pyInt_lt (q : ℚ) (z : ℤ) (h0 : 0 ≤ q) (h : q < (z : ℚ)) : pyInt q < z := by
  simp only [pyInt, if_pos h0]
  exact Int.floor_lt.2 h

/-- Helper: `pyInt` is monotone on nonnegative inputs. -/
theorem pyInt_mono (a b : ℚ) (h0 : 0 ≤ a) (hab : a ≤ b) : pyInt a ≤ pyInt b := by
  simp only [pyInt, if_pos h0, if_pos (le_trans h0 hab)]
  exact Int.floor_le_floor hab

/-- Helper: the in-loop progress value `int((i / total) * 100)` is strictly
below 100 while i < total. -/
theorem progress_lt_100 (i total : Nat) (h : i < total) :
    pyInt ((i : ℚ) / (total : ℚ) * 100) < 100 := by
  have ht : (0:ℚ) < (total : ℚ) := by exact_mod_cast Nat.lt_of_le_of_lt (Nat.zero_le i) h
  apply pyInt_lt
  · positivity
  · have h1 : (i:ℚ) / (total:ℚ) < 1 := (div_lt_one ht).2 (by exact_mod_cast h)
    nlinarith

/-- Helper: the in-loop progress value is nonnegative. -/
theorem progress_nonneg (i total : Nat) : 0 ≤ pyInt ((i : ℚ) / (total : ℚ) * 100) := by
  apply pyInt_nonneg
  positivity

/-- Helper: the in-loop progress value is monotone in the step index. -/
theorem progress_mono (i j total : Nat) (hij : i ≤ j) :
    pyInt ((i : ℚ) / (total : ℚ) * 100) ≤ pyInt ((j : ℚ) / (total : ℚ) * 100) := by
  apply pyInt_mono
  · positivity
  · have hij' : (i:ℚ) ≤ (j:ℚ) := by exact_mod_cast hij
    gcongr

/-- Helper: indices produced by `enumFrom` lie in the expected range. -/
theorem mem_enumFrom_bounds {α : Type} (l : List α) :
    ∀ (n : Nat) (q : Nat × α), q ∈ l.enumFrom n → n ≤ q.1 ∧ q.1 < n + l.length := by
  induction l with
  | nil => intro n q h; simp [List.enumFrom] at h
  | cons a tl ih =>
    intro n q h
    simp only [List.enumFrom, List.mem_cons] at h
    rcases h with h | h
    · subst h; simp
    · have := ih (n + 1) q h
      constructor <;> [omega; (simp only [List.length_cons]; omega)]

/-- Helper: indices produced by `enumFrom` are non-decreasing. -/
theorem enumFrom_fst_pairwise {α : Type} (l : List α) :
    ∀ n : Nat, List.Pairwise (fun a b : Nat × α => a.1 ≤ b.1) (l.enumFrom n) := by
  induction l with
  | nil => intro n; simp [List.enumFrom]
  | cons a tl ih =>
    intro n
    simp only [List.enumFrom]
    refine List.Pairwise.cons ?_ (ih (n + 1))
    intro q hq
    have := (mem_enumFrom_bounds tl (n + 1) q hq).1
    simp only
    omega

/-- Helper: indices produced by `enum` are below the list length. -/
theorem enum_fst_lt {α : Type} (l : List α) (q : Nat × α) (h : q ∈ l.enum) :
    q.1 < l.length := by
  have := (mem_enumFrom_bounds l 0 q h).2
  omega

/-- Helper: when no injected failure fires on the list, the loop returns
normally (the per-step computation itself cannot throw outward). -/
theorem run_loop_ok_of_no_exo (env : RunEnv) (db : List ImpactFactor)
    (scenario : Scenario) (baseline : Baseline) (exo : Option RunFailure)
    (total : Nat) :
    ∀ (l : List (Nat × ℤ)) (st : RunState) (results : List SimResult),
      (∀ q ∈ l, exoStep exo q.1 = none) →
      ∃ st' res',
        run_loop env db scenario baseline exo total l st results = .ok (st', res') := by
  intro l
  induction l with
  | nil => intro st results _; exact ⟨st, results, rfl⟩
  | cons hd tl ih =>
    intro st results hexo
    obtain ⟨i, ts⟩ := hd
    have h0 : exoStep exo i = none := hexo (i, ts) (List.mem_cons_self _ _)
    simp only [run_loop, h0]
    exact ih _ _ (fun q hq => hexo q (List.mem_cons_of_mem _ hq))

/-- Helper: the loop writes only `progress_percent` and trace entries; the
status and the persisted rows are untouched. -/
theorem run_loop_fields (env : RunEnv) (db : List ImpactFactor) (scenario : Scenario)
    (baseline : Baseline) (exo : Option RunFailure) (total : Nat) :
    ∀ (l : List (Nat × ℤ)) (st : RunState) (results : List SimResult),
      (∀ st' res', run_loop env db scenario baseline exo total l st results = .ok (st', res') →
        st'.status = st.status ∧ st'.persisted = st.persisted) ∧
      (∀ m st', run_loop env db scenario baseline exo total l st results = .error (m, st') →
        st'.status = st.status ∧ st'.persisted = st.persisted) := by
  intro l
  induction l with
  | nil =>
    intro st results
    refine ⟨?_, ?_⟩
    · intro st' res' h
      simp only [run_loop, Except.ok.injEq, Prod.mk.injEq] at h
      rw [← h.1]
      exact ⟨rfl, rfl⟩
    · intro m st' h
      simp only [run_loop] at h
      exact absurd h (by simp)
  | cons hd tl ih =>
    intro st results
    obtain ⟨i, ts⟩ := hd
    cases h0 : exoStep exo i with
    | some m =>
      refine ⟨?_, ?_⟩
      · intro st' res' h
        simp only [run_loop, h0] at h
        exact absurd h (by simp)
      · intro m' st' h
        simp only [run_loop, h0, Except.error.injEq, Prod.mk.injEq] at h
        rw [← h.2]
        exact ⟨rfl, rfl⟩
    | none =>
      refine ⟨?_, ?_⟩
      · intro st' res' h
        simp only [run_loop, h0] at h
        have := (ih _ _).1 st' res' h
        simpa [saveState] using this
      · intro m st' h
        simp only [run_loop, h0] at h
        have := (ih _ _).2 m st' h
        simpa [saveState] using this

/-- Helper: the loop preserves the progress-trace invariant `trace_ok`. -/
theorem run_loop_trace (env : RunEnv) (db : List ImpactFactor) (scenario : Scenario)
    (baseline : Baseline) (exo : Option RunFailure) (total : Nat) :
    ∀ (l : List (Nat × ℤ)) (st : RunState) (results : List SimResult),
      trace_ok st →
      (∀ q ∈ l, q.1 < total) →
      (∀ q ∈ l, st.progress_percent ≤ pyInt ((q.1 : ℚ) / (total : ℚ) * 100)) →
      List.Pairwise (fun a b : Nat × ℤ => a.1 ≤ b.1) l →
      (∀ st' res', run_loop env db scenario baseline exo total l st results = .ok (st', res') →
        trace_ok st') ∧
      (∀ m st', run_loop env db scenario baseline exo total l st results = .error (m, st') →
        trace_ok st') := by
  intro l
  induction l with
  | nil =>
    intro st results hto _ _ _
    refine ⟨?_, ?_⟩
    · intro st' res' h
      simp only [run_loop, Except.ok.injEq, Prod.mk.injEq] at h
      rwa [← h.1]
    · intro m st' h
      simp only [run_loop] at h
      exact absurd h (by simp)
  | cons hd tl ih =>
    intro st results hto hidx hfirst hpw
    obtain ⟨i, ts⟩ := hd
    have hi : i < total := hidx (i, ts) (List.mem_cons_self _ _)
    have hfi : st.progress_percent ≤ pyInt ((i : ℚ) / (total : ℚ) * 100) :=
      hfirst (i, ts) (List.mem_cons_self _ _)
    cases h0 : exoStep exo i with
    | some m =>
      refine ⟨?_, ?_⟩
      · intro st' res' h
        simp only [run_loop, h0] at h
        exact absurd h (by simp)
      · intro m' st' h
        simp only [run_loop, h0, Except.error.injEq, Prod.mk.injEq] at h
        rwa [← h.2]
    | none =>
      obtain ⟨hst, hlt, htr, hle⟩ := hto
      have hto2 : trace_ok (saveState
          { st with progress_percent := pyInt ((i : ℚ) / (total : ℚ) * 100) }) := by
        refine ⟨hst, progress_lt_100 i total hi, ?_, ?_⟩
        · simp only [saveState, List.pairwise_append]
          refine ⟨htr, List.pairwise_singleton _ _, ?_⟩
          intro a ha b hb
          simp only [List.mem_singleton] at hb
          subst hb
          exact le_trans (hle a ha) hfi
        · intro e he
          simp only [saveState, List.mem_append, List.mem_singleton] at he
          rcases he with he | he
          · exact le_trans (hle e he) hfi
          · subst he; exact le_rfl
      have hidx2 : ∀ q ∈ tl, q.1 < total := fun q hq => hidx q (List.mem_cons_of_mem _ hq)
      have hfirst2 : ∀ q ∈ tl,
          (saveState { st with
            progress_percent := pyInt ((i : ℚ) / (total : ℚ) * 100) }).progress_percent ≤
            pyInt ((q.1 : ℚ) / (total : ℚ) * 100) := by
        intro q hq
        have hle2 : i ≤ q.1 := (List.pairwise_cons.1 hpw).1 q hq
        simpa [saveState] using progress_mono i q.1 total hle2
      have hpw2 := (List.pairwise_cons.1 hpw).2
      refine ⟨?_, ?_⟩
      · intro st' res' h
        simp only [run_loop, h0] at h
        exact (ih _ _ hto2 hidx2 hfirst2 hpw2).1 st' res' h
      · intro m st' h
        simp only [run_loop, h0] at h
        exact (ih _ _ hto2 hidx2 hfirst2 hpw2).2 m st' h

/-- Helper: appending a final save at or above the current progress keeps the
trace non-decreasing, and an entry of exactly 100 can only be the completion
save. -/
theorem trace_ok_extend (st : RunState) (hto : trace_ok st) (s : String) (p : ℤ)
    (hp : st.progress_percent ≤ p) (hs : p = 100 → s = "completed") :
    List.Pairwise (fun a b : String × ℤ => a.2 ≤ b.2) (st.trace ++ [(s, p)]) ∧
    ∀ e ∈ st.trace ++ [(s, p)], e.2 = 100 → e.1 = "completed" := by
  obtain ⟨-, hlt, htr, hle⟩ := hto
  constructor
  · rw [List.pairwise_append]
    refine ⟨htr, List.pairwise_singleton _ _, ?_⟩
    intro a ha b hb
    simp only [List.mem_singleton] at hb
    subst hb
    exact le_trans (hle a ha) hp
  · intro e he
    rcases List.mem_append.1 he with h | h
    · intro h100
      have h1 := hle e h
      omega
    · simp only [List.mem_singleton] at h
      subst h
      exact hs

/-- Helper: a loop error carries the message of the injected failure. -/
theorem run_loop_error_exo (env : RunEnv) (db : List ImpactFactor) (scenario : Scenario)
    (baseline : Baseline) (exo : Option RunFailure) (total : Nat) :
    ∀ (l : List (Nat × ℤ)) (st : RunState) (results : List SimResult) (m : String)
      (st' : RunState),
      run_loop env db scenario baseline exo total l st results = .error (m, st') →
      ∃ f, exo = some f ∧ RunFailure.msg f = m := by
  intro l
  induction l with
  | nil =>
    intro st results m st' h
    simp only [run_loop] at h
    exact absurd h (by simp)
  | cons hd tl ih =>
    intro st results m st' h
    obtain ⟨i, ts⟩ := hd
    cases h0 : exoStep exo i with
    | some m0 =>
      simp only [run_loop, h0, Except.error.injEq, Prod.mk.injEq] at h
      obtain ⟨hm, -⟩ := h
      subst hm
      cases exo with
      | none => simp [exoStep] at h0
      | some f =>
        cases f with
        | atClear mm => simp [exoStep] at h0
        | atPersist mm => simp [exoStep] at h0
        | atStep j mm =>
          simp only [exoStep] at h0
          split at h0
          · exact ⟨.atStep j mm, rfl, by injection h0⟩
          · exact absurd h0 (by simp)
    | none =>
      simp only [run_loop, h0] at h
      exact ih _ _ m st' h

/-- Helper: with no injected infrastructure failure a run always returns
`True` and marks the scenario completed, whatever the per-step computations
do. -/
theorem run_none_ok (env : RunEnv) (db : List ImpactFactor) (scenario : Scenario)
    (baseline_db : Option Baseline) (st : RunState) :
    (run_scenario_simulation env db scenario baseline_db none st).1 = true ∧
    (run_scenario_simulation env db scenario baseline_db none st).2.status = "completed" := by
  obtain ⟨st', res', hok⟩ := run_loop_ok_of_no_exo env db scenario
    (resolve_baseline scenario baseline_db) none
    (calculate_time_steps scenario.start_date scenario.end_date
      scenario.time_resolution).length
    (calculate_time_steps scenario.start_date scenario.end_date
      scenario.time_resolution).enum
    { st with persisted := ([] : List SimResult) } [] (fun _ _ => rfl)
  simp only [run_scenario_simulation, run_body, hok]
  simp [saveState]



/-- Helper: a failure injected at any of the `RunFailure` points — all of
which precede or coincide with the bulk persist — makes the run return
`False` with `status = failed`, `error_message` equal to the exception
message, and no row of this run persisted: either the stored rows are empty,
or — when the failure hit the initial clearing of PRIOR results — they are
exactly the untouched rows of the previous run. -/
theorem run_failure_no_partial_results (env : RunEnv) (db : List ImpactFactor)
    (scenario : Scenario) (baseline_db : Option Baseline) (exo : Option RunFailure)
    (st : RunState)
    (h : (run_scenario_simulation env db scenario baseline_db exo st).1 = false) :
    (run_scenario_simulation env db scenario baseline_db exo st).2.status = "failed" ∧
    (∃ f, exo = some f ∧
      (run_scenario_simulation env db scenario baseline_db exo st).2.error_message =
        RunFailure.msg f) ∧
    ((run_scenario_simulation env db scenario baseline_db exo st).2.persisted = [] ∨
     (∃ m, exo = some (.atClear m) ∧
       (run_scenario_simulation env db scenario baseline_db exo st).2.persisted =
         st.persisted)) := by
  cases exo with
  | none =>
    exact absurd h (by simp [(run_none_ok env db scenario baseline_db st).1])
  | some f =>
    cases f with
    | atClear m =>
      simp only [run_scenario_simulation, run_body]
      exact ⟨by simp [saveState], ⟨.atClear m, rfl, by simp [saveState, RunFailure.msg]⟩,
        Or.inr ⟨m, rfl, by simp [saveState]⟩⟩
    | atStep j m =>
      cases hl : run_loop env db scenario (resolve_baseline scenario baseline_db)
          (some (.atStep j m))
          (calculate_time_steps scenario.start_date scenario.end_date
            scenario.time_resolution).length
          (calculate_time_steps scenario.start_date scenario.end_date
            scenario.time_resolution).enum
          { st with persisted := ([] : List SimResult) } [] with
      | error e =>
        obtain ⟨m', st'⟩ := e
        obtain ⟨ff, hff, hmsg⟩ := run_loop_error_exo env db scenario _ _ _ _ _ _ m' st' hl
        have hper := ((run_loop_fields env db scenario _ _ _ _ _ _).2 m' st' hl).2
        simp only [run_scenario_simulation, run_body, hl]
        refine ⟨by simp [saveState], ⟨ff, hff.symm ▸ rfl, ?_⟩, Or.inl ?_⟩
        · simp only [saveState]
          simpa using hmsg.symm
        · simpa [saveState] using hper
      | ok pr =>
        obtain ⟨st2, res2⟩ := pr
        exfalso
        simp only [run_scenario_simulation, run_body, hl] at h
        exact absurd h (by simp)
    | atPersist m =>
      obtain ⟨st', res', hok⟩ := run_loop_ok_of_no_exo env db scenario
        (resolve_baseline scenario baseline_db) (some (.atPersist m))
        (calculate_time_steps scenario.start_date scenario.end_date
          scenario.time_resolution).length
        (calculate_time_steps scenario.start_date scenario.end_date
          scenario.time_resolution).enum
        { st with persisted := ([] : List SimResult) } [] (fun _ _ => rfl)
      have hper := ((run_loop_fields env db scenario _ _ _ _ _ _).1 st' res' hok).2
      simp only [run_scenario_simulation, run_body, hok]
      refine ⟨by simp [saveState], ⟨.atPersist m, rfl, by simp [saveState, RunFailure.msg]⟩,
        Or.inl ?_⟩
      simpa [saveState] using hper



/-- Helper: the failure save publishes the last progress with status failed,
preserving the trace properties. -/
theorem final_trace_ok_fail (stX : RunState) (hto : trace_ok stX) (m : String) :
    List.Pairwise (fun a b : String × ℤ => a.2 ≤ b.2)
      (saveState { stX with status := "failed", error_message := m }).trace ∧
    ∀ e ∈ (saveState { stX with status := "failed", error_message := m }).trace,
      e.2 = 100 → e.1 = "completed" := by
  have hlt := hto.2.1
  have h := trace_ok_extend stX hto "failed" stX.progress_percent le_rfl
    (fun hp => absurd hp (by omega))
  simpa [saveState] using h

/-- Helper: the completion save publishes `(completed, 100)`, preserving the
trace properties. -/
theorem final_trace_ok_complete (stX : RunState) (hto : trace_ok stX)
    (res : List SimResult) :
    List.Pairwise (fun a b : String × ℤ => a.2 ≤ b.2)
      (saveState { stX with
        persisted := res,
        status := "completed",
        progress_percent := 100,
        completed := true }).trace ∧
    ∀ e ∈ (saveState { stX with
        persisted := res,
        status := "completed",
        progress_percent := 100,
        completed := true }).trace,
      e.2 = 100 → e.1 = "completed" := by
  have h := trace_ok_extend stX hto "completed" 100 (le_of_lt hto.2.1) (fun _ => rfl)
  simpa [saveState] using h

/-- C8.  Starting from the state the `run_simulation` view hands over
(status running, progress 0) and for every injected-failure choice, the
sequence of `(status, progress_percent)` pairs written by
`run_scenario_simulation` is monotonically non-decreasing in the progress
component, and an entry with progress exactly 100 only ever occurs with
status completed: a poller never observes running together with 100. -/
theorem run_progress_monotone (env : RunEnv) (db : List ImpactFactor)
    (scenario : Scenario) (baseline_db : Option Baseline) (exo : Option RunFailure)
    (st : RunState) (h1 : st.status = "running") (h2 : st.progress_percent = 0)
    (h3 : st.trace = []) :
    List.Pairwise (fun a b : String × ℤ => a.2 ≤ b.2)
      (run_scenario_simulation env db scenario baseline_db exo st).2.trace ∧
    ∀ e ∈ (run_scenario_simulation env db scenario baseline_db exo st).2.trace,
      e.2 = 100 → e.1 = "completed" := by
  have hp0 : ({ st with persisted := ([] : List SimResult) }).progress_percent = 0 := h2
  have htr0 : ({ st with persisted := ([] : List SimResult) }).trace = [] := h3
  have hto1 : trace_ok { st with persisted := ([] : List SimResult) } := by
    refine ⟨h1, by omega, ?_, ?_⟩
    · rw [htr0]; exact List.Pairwise.nil
    · intro e he; rw [htr0] at he; cases he
  have hto0 : trace_ok st := by
    refine ⟨h1, by omega, ?_, ?_⟩
    · rw [h3]; exact List.Pairwise.nil
    · intro e he; rw [h3] at he; cases he
  have hloop := run_loop_trace env db scenario (resolve_baseline scenario baseline_db) exo
    (calculate_time_steps scenario.start_date scenario.end_date
      scenario.time_resolution).length
    (calculate_time_steps scenario.start_date scenario.end_date
      scenario.time_resolution).enum
    { st with persisted := ([] : List SimResult) } []
    hto1
    (fun q hq => enum_fst_lt _ q hq)
    (fun q _ => by rw [hp0]; exact progress_nonneg q.1 _)
    (enumFrom_fst_pairwise _ 0)
  cases exo with
  | none =>
    obtain ⟨st2, res2, hok⟩ := run_loop_ok_of_no_exo env db scenario
      (resolve_baseline scenario baseline_db) none
      (calculate_time_steps scenario.start_date scenario.end_date
        scenario.time_resolution).length
      (calculate_time_steps scenario.start_date scenario.end_date
        scenario.time_resolution).enum
      { st with persisted := ([] : List SimResult) } [] (fun _ _ => rfl)
    have hto2 := hloop.1 st2 res2 hok
    simp only [run_scenario_simulation, run_body, hok]
    exact final_trace_ok_complete st2 hto2 res2
  | some f =>
    cases f with
    | atClear m =>
      simp only [run_scenario_simulation, run_body]
      exact final_trace_ok_fail st hto0 m
    | atStep j m =>
      cases hl : run_loop env db scenario (resolve_baseline scenario baseline_db)
          (some (.atStep j m))
          (calculate_time_steps scenario.start_date scenario.end_date
            scenario.time_resolution).length
          (calculate_time_steps scenario.start_date scenario.end_date
            scenario.time_resolution).enum
          { st with persisted := ([] : List SimResult) } [] with
      | error e =>
        obtain ⟨m', st'⟩ := e
        have hto' := hloop.2 m' st' hl
        simp only [run_scenario_simulation, run_body, hl]
        exact final_trace_ok_fail st' hto' m'
      | ok pr =>
        obtain ⟨st2, res2⟩ := pr
        have hto2 := hloop.1 st2 res2 hl
        simp only [run_scenario_simulation, run_body, hl]
        exact final_trace_ok_complete st2 hto2 res2
    | atPersist m =>
      obtain ⟨st2, res2, hok⟩ := run_loop_ok_of_no_exo env db scenario
        (resolve_baseline scenario baseline_db) (some (.atPersist m))
        (calculate_time_steps scenario.start_date scenario.end_date
          scenario.time_resolution).length
        (calculate_time_steps scenario.start_date scenario.end_date
          scenario.time_resolution).enum
        { st with persisted := ([] : List SimResult) } [] (fun _ _ => rfl)
      have hto2 := hloop.1 st2 res2 hok
      simp only [run_scenario_simulation, run_body, hok]
      exact final_trace_ok_fail st2 hto2 m



/-- Helper: a string-valued parameter anywhere in the mapping makes
`get_applicable_impact_factors` raise the `TypeError` from the comparison
`param_value > 0`. -/
theorem get_applicable_error_of_str_param (db : List ImpactFactor) (scenario : Scenario)
    (pn sv : String) (hmem : (pn, ParamValue.str sv) ∈ scenario.parameters) :
    get_applicable_impact_factors db scenario = .error type_error_msg := by
  have key : ∀ (l : List (String × ParamValue)) (acc : List ImpactFactor),
      (pn, ParamValue.str sv) ∈ l →
      l.foldlM
        (fun acc p =>
          match p.2 with
          | .str _ => Except.error type_error_msg
          | .num q =>
            if 0 < q then Except.ok (acc ++ matching_factors db p.1)
            else Except.ok acc)
        acc = (.error type_error_msg : Except String (List ImpactFactor)) := by
    intro l
    induction l with
    | nil => intro acc h; cases h
    | cons hd tl ih =>
      intro acc h
      obtain ⟨k, v⟩ := hd
      cases v with
      | str s => simp [List.foldlM_cons, Except.instMonad, Except.bind]
      | num q =>
        have htl : (pn, ParamValue.str sv) ∈ tl := by
          rcases List.mem_cons.1 h with h1 | h1
          · exfalso
            injection h1 with h1a h1b
            cases h1b
          · exact h1
        simp only [List.foldlM_cons]
        by_cases hq : 0 < q
        · simp [hq, ih _ htl, Except.instMonad, Except.bind]
        · simp [hq, ih _ htl, Except.instMonad, Except.bind]
  simp only [get_applicable_impact_factors]
  rw [key scenario.parameters [] hmem]
  rfl

/-- Helper: with only numeric parameter values the factor query succeeds. -/
theorem get_applicable_ok_of_num_params (db : List ImpactFactor) (scenario : Scenario)
    (hnum : ∀ p ∈ scenario.parameters, ∃ q, p.2 = ParamValue.num q) :
    ∃ fs, get_applicable_impact_factors db scenario = .ok fs := by
  have key : ∀ (l : List (String × ParamValue)) (acc : List ImpactFactor),
      (∀ p ∈ l, ∃ q, p.2 = ParamValue.num q) →
      ∃ res, l.foldlM
        (fun acc p =>
          match p.2 with
          | .str _ => Except.error type_error_msg
          | .num q =>
            if 0 < q then Except.ok (acc ++ matching_factors db p.1)
            else Except.ok acc)
        acc = (.ok res : Except String (List ImpactFactor)) := by
    intro l
    induction l with
    | nil => intro acc _; exact ⟨acc, rfl⟩
    | cons hd tl ih =>
      intro acc hn
      obtain ⟨k, v⟩ := hd
      obtain ⟨q, hq⟩ := hn (k, v) (List.mem_cons_self _ _)
      simp only at hq
      subst hq
      simp only [List.foldlM_cons]
      by_cases h0 : 0 < q
      · obtain ⟨res, hres⟩ := ih (acc ++ matching_factors db k)
          (fun p hp => hn p (List.mem_cons_of_mem _ hp))
        exact ⟨res, by simp [h0, hres, Except.instMonad, Except.bind]⟩
      · obtain ⟨res, hres⟩ := ih acc (fun p hp => hn p (List.mem_cons_of_mem _ hp))
        exact ⟨res, by simp [h0, hres, Except.instMonad, Except.bind]⟩
  obtain ⟨res, hres⟩ := key scenario.parameters [] hnum
  simp only [get_applicable_impact_factors, hres]
  cases scenario.template with
  | none => exact ⟨res, rfl⟩
  | some t => exact ⟨_, rfl⟩

/-- Helper: with a string-valued parameter the step body raises the
`TypeError` and `calculate_timestep_impact` returns `None`, at every
timestamp. -/
theorem body_error_of_str_param (env : RunEnv) (db : List ImpactFactor)
    (scenario : Scenario) (baseline : Baseline) (ts : ℤ) (pn sv : String)
    (hmem : (pn, ParamValue.str sv) ∈ scenario.parameters) :
    calculate_timestep_impact_body env db scenario baseline ts = .error type_error_msg ∧
    calculate_timestep_impact env db scenario baseline ts = none := by
  have hf := get_applicable_error_of_str_param db scenario pn sv hmem
  have h1 : calculate_timestep_impact_body env db scenario baseline ts =
      .error type_error_msg := by
    simp only [calculate_timestep_impact_body, hf]
    rfl
  exact ⟨h1, by simp only [calculate_timestep_impact, h1]⟩

/-- Helper: when every step returns `None`, the loop accumulates no
results. -/
theorem run_loop_results_const (env : RunEnv) (db : List ImpactFactor)
    (scenario : Scenario) (baseline : Baseline) (total : Nat)
    (hstep : ∀ ts, calculate_timestep_impact env db scenario baseline ts = none) :
    ∀ (l : List (Nat × ℤ)) (st : RunState) (results : List SimResult),
      ∃ st', run_loop env db scenario baseline none total l st results =
        .ok (st', results) := by
  intro l
  induction l with
  | nil => intro st results; exact ⟨st, rfl⟩
  | cons hd tl ih =>
    intro st results
    obtain ⟨i, ts⟩ := hd
    simp only [run_loop, exoStep, hstep ts]
    exact ih _ _



/-- C6 (amended).  The division computing `improvement_percent` is NOT
guarded: whenever the factor query succeeds (numeric parameters), no
`weather` parameter is present, and the baseline overall AQI is 0, the step
body raises `ZeroDivisionError` at the `improvement_percent` division; the
exception is caught by the catch-all handler of `calculate_timestep_impact`,
which returns `None` — the step reports no `improvement_percent` value at all
(neither 0 nor a sentinel), and no exception propagates out of the step. -/
theorem improvement_zero_division_swallowed (env : RunEnv) (db : List ImpactFactor)
    (scenario : Scenario) (baseline : Baseline) (ts : ℤ)
    (hnum : ∀ p ∈ scenario.parameters, ∃ q, p.2 = ParamValue.num q)
    (hw : scenario.parameters.find? (fun p => p.1 == "weather") = none)
    (hb : maxPoll (baseline_aqi_of baseline) = 0) :
    calculate_timestep_impact_body env db scenario baseline ts = .error zero_division_msg ∧
    calculate_timestep_impact env db scenario baseline ts = none := by
  obtain ⟨fs, hfs⟩ := get_applicable_ok_of_num_params db scenario hnum
  have h1 : calculate_timestep_impact_body env db scenario baseline ts =
      .error zero_division_msg := by
    simp only [calculate_timestep_impact_body, hfs, apply_weather_effects, hw,
      Except.instMonad, Except.bind, hb]
    simp
  exact ⟨h1, by simp only [calculate_timestep_impact, h1]⟩

/-- C6 (witness for the amended theorem). -/
theorem improvement_zero_division_swallowed_witness :
    calculate_timestep_impact_body trivial_env [] one_step_scenario_industry
      zero_aqi_baseline 5 = .error zero_division_msg ∧
    calculate_timestep_impact trivial_env [] one_step_scenario_industry
      zero_aqi_baseline 5 = none :=
  improvement_zero_division_swallowed trivial_env [] one_step_scenario_industry
    zero_aqi_baseline 5
    (by
      rintro ⟨a, b⟩ hp
      simp only [one_step_scenario_industry, List.mem_singleton, Prod.mk.injEq] at hp
      exact ⟨2, hp.2⟩)
    (by rfl)
    (by simp [zero_aqi_baseline, baseline_aqi_of, maxPoll, List.find?, Pollutant.key])



/-- C6 (counterexample).  At a concrete input with baseline overall AQI 0 the
step raises `ZeroDivisionError` internally and returns `None`: contrary to
the claim, the division is unguarded and the step does not report
`improvement_percent = 0` or any sentinel value. -/
theorem improvement_division_unguarded_cex :
    calculate_timestep_impact_body trivial_env [] one_step_scenario_industry
      zero_aqi_baseline 0 = .error zero_division_msg ∧
    calculate_timestep_impact trivial_env [] one_step_scenario_industry
      zero_aqi_baseline 0 = none := by
  constructor
  · simp +decide [calculate_timestep_impact_body, get_applicable_impact_factors,
      apply_weather_effects, one_step_scenario_industry, zero_aqi_baseline,
      List.foldlM, Except.instMonad, Except.bind, Except.pure, pure,
      matching_factors, maxPoll, baseline_aqi_of, List.find?]
  · simp +decide [calculate_timestep_impact, calculate_timestep_impact_body,
      get_applicable_impact_factors, apply_weather_effects,
      one_step_scenario_industry, zero_aqi_baseline, List.foldlM,
      Except.instMonad, Except.bind, Except.pure, pure, matching_factors,
      maxPoll, baseline_aqi_of, List.find?]

/-- C5 (counterexample).  A concrete run in which the per-step computation
raises an exception at its only time step (`ZeroDivisionError` from a zero
baseline AQI) still returns `True` and ends with `status = completed`: the
run does NOT fail, the failing step is silently skipped. -/
theorem step_exception_run_still_completes :
    calculate_timestep_impact_body trivial_env [] one_step_scenario
      zero_aqi_baseline 0 = .error zero_division_msg ∧
    (run_scenario_simulation trivial_env [] one_step_scenario (some zero_aqi_baseline)
      none initial_run_state).1 = true ∧
    (run_scenario_simulation trivial_env [] one_step_scenario (some zero_aqi_baseline)
      none initial_run_state).2.status = "completed" := by
  refine ⟨?_,
    (run_none_ok trivial_env [] one_step_scenario (some zero_aqi_baseline)
      initial_run_state).1,
    (run_none_ok trivial_env [] one_step_scenario (some zero_aqi_baseline)
      initial_run_state).2⟩
  simp +decide [calculate_timestep_impact_body, get_applicable_impact_factors,
    apply_weather_effects, one_step_scenario, zero_aqi_baseline, List.foldlM,
    Except.instMonad, Except.bind, Except.pure, pure, matching_factors, maxPoll,
    baseline_aqi_of, List.find?]

/-- C5 (amended).  An exception raised by the per-step computation is caught
and logged inside `calculate_timestep_impact` itself, which returns `None`;
the engine then skips the step (`if result:`) and, absent infrastructure
failures, the run still returns `True` and completes — the overall run does
NOT fail because of a failing step. -/
theorem step_exception_swallowed_run_completes (env : RunEnv) (db : List ImpactFactor)
    (scenario : Scenario) (baseline : Baseline) (baseline_db : Option Baseline)
    (st : RunState) (ts : ℤ) (m : String)
    (h : calculate_timestep_impact_body env db scenario baseline ts = .error m) :
    calculate_timestep_impact env db scenario baseline ts = none ∧
    (run_scenario_simulation env db scenario baseline_db none st).1 = true ∧
    (run_scenario_simulation env db scenario baseline_db none st).2.status = "completed" :=
  ⟨by simp only [calculate_timestep_impact, h],
   (run_none_ok env db scenario baseline_db st).1,
   (run_none_ok env db scenario baseline_db st).2⟩

/-- C5 (witness for the amended theorem). -/
theorem step_exception_swallowed_run_completes_witness :
    calculate_timestep_impact trivial_env [] str_param_scenario zero_aqi_baseline 0 = none ∧
    (run_scenario_simulation trivial_env [] str_param_scenario (some zero_aqi_baseline)
      none initial_run_state).1 = true ∧
    (run_scenario_simulation trivial_env [] str_param_scenario (some zero_aqi_baseline)
      none initial_run_state).2.status = "completed" :=
  step_exception_swallowed_run_completes trivial_env [] str_param_scenario
    zero_aqi_baseline (some zero_aqi_baseline) initial_run_state 0 type_error_msg
    ((body_error_of_str_param trivial_env [] str_param_scenario zero_aqi_baseline 0
      "policy_mode" "strict" (by simp [str_param_scenario])).1)

/-- C10 (amended).  For every scenario whose parameters contain a
non-numeric string value, `get_applicable_impact_factors` raises `TypeError`
when evaluating `param_value > 0` — but the call happens inside the
`try/except` of `calculate_timestep_impact`, so every step returns `None`
and, absent infrastructure failures, `run_scenario_simulation` returns `True`
and leaves the scenario with `status = completed` and zero persisted
results, regardless of all other parameter values. -/
theorem str_param_run_completes (env : RunEnv) (db : List ImpactFactor)
    (scenario : Scenario) (baseline_db : Option Baseline) (st : RunState)
    (pn sv : String) (hmem : (pn, ParamValue.str sv) ∈ scenario.parameters) :
    get_applicable_impact_factors db scenario = .error type_error_msg ∧
    (run_scenario_simulation env db scenario baseline_db none st).1 = true ∧
    (run_scenario_simulation env db scenario baseline_db none st).2.status = "completed" ∧
    (run_scenario_simulation env db scenario baseline_db none st).2.persisted = [] := by
  have hf := get_applicable_error_of_str_param db scenario pn sv hmem
  have hstep : ∀ ts, calculate_timestep_impact env db scenario
      (resolve_baseline scenario baseline_db) ts = none :=
    fun ts => (body_error_of_str_param env db scenario _ ts pn sv hmem).2
  obtain ⟨st', hok⟩ := run_loop_results_const env db scenario
    (resolve_baseline scenario baseline_db)
    (calculate_time_steps scenario.start_date scenario.end_date
      scenario.time_resolution).length hstep
    (calculate_time_steps scenario.start_date scenario.end_date
      scenario.time_resolution).enum
    { st with persisted := ([] : List SimResult) } []
  refine ⟨hf, ?_, ?_, ?_⟩ <;>
    simp only [run_scenario_simulation, run_body, hok] <;>
    simp [saveState]

/-- C10 (witness for the amended theorem). -/
theorem str_param_run_completes_witness :
    get_applicable_impact_factors [] str_param_scenario = .error type_error_msg ∧
    (run_scenario_simulation trivial_env [] str_param_scenario none none
      initial_run_state).1 = true ∧
    (run_scenario_simulation trivial_env [] str_param_scenario none none
      initial_run_state).2.status = "completed" ∧
    (run_scenario_simulation trivial_env [] str_param_scenario none none
      initial_run_state).2.persisted = [] :=
  str_param_run_completes trivial_env [] str_param_scenario none initial_run_state
    "policy_mode" "strict" (by simp [str_param_scenario])

/-- C10 (counterexample).  A concrete scenario with a string-valued
parameter on which the run returns `True` and ends completed — not `False`
and failed as the claim states. -/
theorem str_param_run_not_failed_cex :
    (("policy_mode", ParamValue.str "strict") ∈ str_param_scenario.parameters) ∧
    (run_scenario_simulation trivial_env [] str_param_scenario none none
      initial_run_state).1 = true ∧
    (run_scenario_simulation trivial_env [] str_param_scenario none none
      initial_run_state).2.status = "completed" :=
  ⟨by simp [str_param_scenario],
   (run_none_ok trivial_env [] str_param_scenario none initial_run_state).1,
   (run_none_ok trivial_env [] str_param_scenario none initial_run_state).2⟩

/-- C8 (witness). -/
theorem run_progress_monotone_witness :
    List.Pairwise (fun a b : String × ℤ => a.2 ≤ b.2)
      (run_scenario_simulation trivial_env [] one_step_scenario none none
        initial_run_state).2.trace ∧
    ∀ e ∈ (run_scenario_simulation trivial_env [] one_step_scenario none none
        initial_run_state).2.trace, e.2 = 100 → e.1 = "completed" :=
  run_progress_monotone trivial_env [] one_step_scenario none none initial_run_state
    rfl rfl rfl


/-! ## Theorems about the completion-save failure path (claim C1) -/

/-- Helper: the second component of an `enumFrom` member is a list member. -/
theorem mem_enumFrom_snd {α : Type} (l : List α) :
    ∀ (n : Nat) (q : Nat × α), q ∈ l.enumFrom n → q.2 ∈ l := by
  induction l with
  | nil => intro n q h; simp [List.enumFrom] at h
  | cons a tl ih =>
    intro n q h
    simp only [List.enumFrom, List.mem_cons] at h
    rcases h with h | h
    · subst h; simp
    · exact List.mem_cons_of_mem _ (ih (n + 1) q h)

/-- Helper: with no injected failure and every step returning a result, the
loop returns normally and accumulates one result row per time step. -/
theorem run_loop_none_ok_length (env : RunEnv) (db : List ImpactFactor)
    (scenario : Scenario) (baseline : Baseline) (total : Nat) :
    ∀ (l : List (Nat × ℤ)) (st : RunState) (results : List SimResult),
      (∀ q ∈ l,
        (calculate_timestep_impact env db scenario baseline q.2).isSome = true) →
      ∃ st' res',
        run_loop env db scenario baseline none total l st results = .ok (st', res') ∧
        res'.length = results.length + l.length := by
  intro l
  induction l with
  | nil => intro st results _; exact ⟨st, results, rfl, by simp⟩
  | cons hd tl ih =>
    intro st results hsome
    obtain ⟨i, ts⟩ := hd
    have h0 : (calculate_timestep_impact env db scenario baseline ts).isSome = true :=
      hsome (i, ts) (List.mem_cons_self _ _)
    obtain ⟨r, hr⟩ := Option.isSome_iff_exists.1 h0
    simp only [run_loop, exoStep, hr]
    obtain ⟨st', res', hok, hlen⟩ :=
      ih (saveState { st with
        progress_percent := pyInt ((i : ℚ) / (total : ℚ) * 100) })
        (results ++ [r]) (fun q hq => hsome q (List.mem_cons_of_mem _ hq))
    refine ⟨st', res', hok, ?_⟩
    rw [hlen]
    simp only [List.length_append, List.length_cons, List.length_nil]
    omega

/-- C1 (counterexample).  A concrete run in which every step succeeds, the
bulk persist commits the result row, and the completion save at line 68 then
raises: the scenario ends with `status = failed` and the exception message —
but the persisted result set is NOT empty, falsifying the claim that any
exception after a run starts leaves zero `SimulationResult` rows. -/
theorem completion_save_failure_keeps_results :
    (run_with_completion_save_failure trivial_env [] one_step_scenario
      (some zero_conc_baseline) "save failed" initial_run_state).1 = false ∧
    (run_with_completion_save_failure trivial_env [] one_step_scenario
      (some zero_conc_baseline) "save failed" initial_run_state).2.status =
      "failed" ∧
    (run_with_completion_save_failure trivial_env [] one_step_scenario
      (some zero_conc_baseline) "save failed" initial_run_state).2.error_message =
      "save failed" ∧
    (run_with_completion_save_failure trivial_env [] one_step_scenario
      (some zero_conc_baseline) "save failed" initial_run_state).2.persisted ≠ [] := by
  have h1 : get_applicable_impact_factors [] one_step_scenario = Except.ok [] := by
    simp [get_applicable_impact_factors, one_step_scenario, List.foldlM,
      Except.instMonad, Except.bind, Except.pure, pure, matching_factors]
  have h2 : one_step_scenario.parameters.find? (fun p => p.1 == "weather") = none := by
    simp [one_step_scenario, List.find?]
  have hA : maxPoll (baseline_aqi_of zero_conc_baseline) = 85 := by
    simp [zero_conc_baseline, baseline_aqi_of, maxPoll, List.find?, Pollutant.key]
    norm_num [max_def]
  have hC : ∀ p, baseline_concentration_of zero_conc_baseline p = 0 := by
    intro p
    cases p <;>
      simp [zero_conc_baseline, baseline_concentration_of, List.find?, Pollutant.key]
  have hstepSome : (calculate_timestep_impact trivial_env [] one_step_scenario
      zero_conc_baseline 0).isSome = true := by
    simp only [calculate_timestep_impact, calculate_timestep_impact_body, h1,
      Except.instMonad, Except.bind, apply_weather_effects, h2,
      apply_impact_factors, List.foldl, apply_temporal_variations]
    rw [if_neg (show ¬ maxPoll (baseline_aqi_of zero_conc_baseline) = 0 by
      rw [hA]; norm_num)]
    rw [if_neg ?hB]
    case hB => norm_num [hC]
    all_goals rfl
  have hrb : resolve_baseline one_step_scenario (some zero_conc_baseline) =
      zero_conc_baseline := rfl
  have hts : calculate_time_steps one_step_scenario.start_date
      one_step_scenario.end_date one_step_scenario.time_resolution = [0] := rfl
  obtain ⟨st2, res2, hok, hlen⟩ := run_loop_none_ok_length trivial_env []
    one_step_scenario (resolve_baseline one_step_scenario (some zero_conc_baseline))
    (calculate_time_steps one_step_scenario.start_date one_step_scenario.end_date
      one_step_scenario.time_resolution).length
    (calculate_time_steps one_step_scenario.start_date one_step_scenario.end_date
      one_step_scenario.time_resolution).enum
    { initial_run_state with persisted := ([] : List SimResult) } []
    (by
      intro q hq
      have h2m := mem_enumFrom_snd _ 0 q hq
      rw [hts] at h2m
      simp only [List.mem_singleton] at h2m
      rw [h2m, hrb]
      exact hstepSome)
  have hres2 : res2 ≠ [] := by
    intro hnil
    rw [hnil, hts] at hlen
    simp [List.enum_length] at hlen
  refine ⟨?_, ?_, ?_, ?_⟩ <;>
    simp only [run_with_completion_save_failure, hok] <;>
    simp [saveState, hres2]

/-- C1 (amended).  If an exception is raised during `run_scenario_simulation`
after a run starts, the run returns `False` and the scenario ends with
`status = failed` and `error_message` equal to the exception message; the
rows persisted for the run depend on WHERE the exception fired.  For every
failure at or before the bulk persist (the `RunFailure` points: clearing,
the step loop, `bulk_create` itself) no row of this run is persisted —
results are bulk-persisted only after every time step, so those failures are
all-or-nothing.  But for a failure of the completion save at line 68, which
runs after `bulk_create` committed, the scenario likewise ends failed while
the FULL accumulated result set remains persisted. -/
theorem run_exception_persistence :
    (∀ (env : RunEnv) (db : List ImpactFactor) (scenario : Scenario)
       (baseline_db : Option Baseline) (exo : Option RunFailure) (st : RunState),
       (run_scenario_simulation env db scenario baseline_db exo st).1 = false →
       (run_scenario_simulation env db scenario baseline_db exo st).2.status = "failed" ∧
       (∃ f, exo = some f ∧
         (run_scenario_simulation env db scenario baseline_db exo st).2.error_message =
           RunFailure.msg f) ∧
       ((run_scenario_simulation env db scenario baseline_db exo st).2.persisted = [] ∨
        (∃ m, exo = some (.atClear m) ∧
          (run_scenario_simulation env db scenario baseline_db exo st).2.persisted =
            st.persisted))) ∧
    (∀ (env : RunEnv) (db : List ImpactFactor) (scenario : Scenario)
       (baseline_db : Option Baseline) (m : String) (st st2 : RunState)
       (results : List SimResult),
       run_loop env db scenario (resolve_baseline scenario baseline_db) none
         (calculate_time_steps scenario.start_date scenario.end_date
           scenario.time_resolution).length
         (calculate_time_steps scenario.start_date scenario.end_date
           scenario.time_resolution).enum
         { st with persisted := ([] : List SimResult) } [] = .ok (st2, results) →
       (run_with_completion_save_failure env db scenario baseline_db m st).1 = false ∧
       (run_with_completion_save_failure env db scenario baseline_db m st).2.status =
         "failed" ∧
       (run_with_completion_save_failure env db scenario baseline_db m st).2.error_message =
         m ∧
       (run_with_completion_save_failure env db scenario baseline_db m st).2.persisted =
         results) := by
  constructor
  · exact run_failure_no_partial_results
  · intro env db scenario baseline_db m st st2 results hl
    refine ⟨?_, ?_, ?_, ?_⟩ <;>
      simp only [run_with_completion_save_failure, hl] <;>
      simp [saveState]

/-- C1 (witness for the amended theorem). -/
theorem run_exception_persistence_witness :
    ((run_scenario_simulation trivial_env [] one_step_scenario none
        (some (.atClear "database unavailable")) initial_run_state).2.status = "failed" ∧
     (∃ f, (some (RunFailure.atClear "database unavailable") : Option RunFailure) = some f ∧
       (run_scenario_simulation trivial_env [] one_step_scenario none
         (some (.atClear "database unavailable")) initial_run_state).2.error_message =
         RunFailure.msg f) ∧
     ((run_scenario_simulation trivial_env [] one_step_scenario none
         (some (.atClear "database unavailable")) initial_run_state).2.persisted = [] ∨
      (∃ m, (some (RunFailure.atClear "database unavailable") : Option RunFailure) =
         some (.atClear m) ∧
        (run_scenario_simulation trivial_env [] one_step_scenario none
          (some (.atClear "database unavailable")) initial_run_state).2.persisted =
          initial_run_state.persisted))) ∧
    ((run_with_completion_save_failure trivial_env [] empty_grid_scenario none
        "save failed" initial_run_state).1 = false ∧
     (run_with_completion_save_failure trivial_env [] empty_grid_scenario none
        "save failed" initial_run_state).2.status = "failed" ∧
     (run_with_completion_save_failure trivial_env [] empty_grid_scenario none
        "save failed" initial_run_state).2.error_message = "save failed" ∧
     (run_with_completion_save_failure trivial_env [] empty_grid_scenario none
        "save failed" initial_run_state).2.persisted = []) :=
  ⟨run_exception_persistence.1 trivial_env [] one_step_scenario none
      (some (.atClear "database unavailable")) initial_run_state rfl,
   run_exception_persistence.2 trivial_env [] empty_grid_scenario none "save failed"
      initial_run_state { initial_run_state with persisted := ([] : List SimResult) }
      [] rfl⟩


end AirSense
